import Mathlib

/-!
Shallow embedding of the scheduling / reconciliation engine of the
Finance-App repository (src/finance_app.py, src/notification_service.py).

Dates are calendar dates (year, month, day); Python `datetime(...).date()`
values compare lexicographically, which `dateLe` mirrors.  SQLite rows are
modelled as Lean structures, tables as lists kept in insertion order, and
AUTOINCREMENT ids as explicit counters in the `DB` state.  Monetary amounts
(REAL in the schema) are modelled as integers; no claim below depends on
floating-point rounding.
-/

namespace FinanceApp

/-- A calendar date, as produced by Python `datetime.date`. -/
structure Date where
  year : Nat
  month : Nat
  day : Nat
deriving DecidableEq

/-- Lexicographic comparison of dates, mirroring Python date ordering. -/
def dateLe (a b : Date) : Bool :=
  decide (a.year < b.year) ||
    (a.year == b.year &&
      (decide (a.month < b.month) || (a.month == b.month && decide (a.day ≤ b.day))))

/-- Gregorian leap-year rule used by Python's `datetime`. -/
def isLeapYear (y : Nat) : Bool :=
  y % 4 == 0 && (y % 100 != 0 || y % 400 == 0)

/-- Number of days in a month, as enforced by Python's `datetime` constructor. -/
def monthLength (y m : Nat) : Nat :=
  if m == 2 then (if isLeapYear y then 29 else 28)
  else if m == 4 || m == 6 || m == 9 || m == 11 then 30
  else 31

/-- `datetime(year, month, day)` guarded by the repeated
`try ... except ValueError` idiom of `calculate_payment_dates` and
`detect_payments`: an out-of-range day falls back to the last calendar day of
the month (computed in the source via the `+ timedelta(days=32)` trick). -/
def clampedDate (y m d : Nat) : Date :=
  if 1 ≤ d ∧ d ≤ monthLength y m then ⟨y, m, d⟩ else ⟨y, m, monthLength y m⟩

/-- `FinanceApp.calculate_payment_dates` (src/finance_app.py:1383):
returns (last_month_date, this_month_date, next_month_date) for an anchor
`payment_day` relative to the reference (current_month, current_year).  A
known `last_paid_date` is returned verbatim as the previous cycle date. -/
def calculate_payment_dates (payment_day : Nat) (last_paid_date : Option Date)
    (current_month current_year : Nat) : Date × Date × Date :=
  let this_month_date := clampedDate current_year current_month payment_day
  let last_month_date :=
    match last_paid_date with
    | some d => d
    | none =>
      let pm := if current_month == 1 then 12 else current_month - 1
      let py := if current_month == 1 then current_year - 1 else current_year
      clampedDate py pm payment_day
  let nm := if current_month == 12 then 1 else current_month + 1
  let ny := if current_month == 12 then current_year + 1 else current_year
  let next_month_date := clampedDate ny nm payment_day
  (last_month_date, this_month_date, next_month_date)

/-- Row of the `recurring_payments` table. -/
structure RecurringPayment where
  id : Nat
  name : String
  amount : Int
  payment_day : Nat
  last_paid_date : Option Date
  pay_period_months : Option Int
  period_start_date : Option Date
  is_active : Bool
  delete_next_month : Bool
deriving DecidableEq

/-- Row of the `recurring_income` table. -/
structure RecurringIncome where
  id : Nat
  name : String
  amount : Int
  income_day : Nat
  last_received_date : Option Date
deriving DecidableEq

/-- Row of the `one_time_payments` table. -/
structure OneTimePayment where
  id : Nat
  name : String
  amount : Int
  payment_date : Date
  paid : Bool
deriving DecidableEq

/-- Row of the `payment_history` table (a FulfillmentRecord). -/
structure HistoryRecord where
  id : Nat
  payment_id : Nat
  payment_type : String
  name : String
  amount : Int
  payment_date : Date
  month : Nat
  year : Nat
deriving DecidableEq

/-- Row of the `recent_transactions` table (an UndoEntry). -/
structure UndoEntry where
  id : Nat
  history_id : Nat
  payment_id : Nat
  payment_type : String
  name : String
  amount : Int
  payment_date : Date
  month : Nat
  year : Nat
  action_type : String
  old_last_paid_date : Option Date
deriving DecidableEq

/-- Row of the `monthly_summary` table, UNIQUE on (month, year). -/
structure MonthlySummaryRow where
  month : Nat
  year : Nat
  total_payments : Int
  total_income : Int
  savings_amount : Int
  net_savings : Int
deriving DecidableEq

/-- The persisted SQLite state.  Lists keep insertion order (SQLite rowid
order); `next_history_id` / `next_trans_id` model the AUTOINCREMENT
counters, and `checkpoint` models the parsed value of the
`app_settings` key `last_deletion_check_month` ("YYYY-MM") as
(year, month). -/
structure DB where
  recurring_payments : List RecurringPayment
  recurring_income : List RecurringIncome
  one_time_payments : List OneTimePayment
  payment_history : List HistoryRecord
  recent_transactions : List UndoEntry
  monthly_summary : List MonthlySummaryRow
  checkpoint : Option (Nat × Nat)
  next_history_id : Nat
  next_trans_id : Nat
deriving DecidableEq

/-- `FinanceApp.mark_recurring_payment_paid` (src/finance_app.py:1737).
Reads the old `last_paid_date` (a missing id raises and rolls back, modelled
as `none`), overwrites `last_paid_date` with today, inserts a
`payment_history` row for (today.month, today.year) and pushes a
`recent_transactions` row capturing the old date.  The source performs no
duplicate-cycle check before doing so. -/
def mark_recurring_payment_paid (db : DB) (pid : Nat) (today : Date) : Option DB :=
  match db.recurring_payments.find? (fun q => q.id == pid) with
  | none => none
  | some p =>
    let hid := db.next_history_id
    some { db with
      recurring_payments := db.recurring_payments.map
        (fun q => if q.id == pid then { q with last_paid_date := some today } else q),
      payment_history := db.payment_history ++
        [{ id := hid, payment_id := pid, payment_type := "recurring", name := p.name,
           amount := p.amount, payment_date := today, month := today.month, year := today.year }],
      recent_transactions := db.recent_transactions ++
        [{ id := db.next_trans_id, history_id := hid, payment_id := pid,
           payment_type := "recurring", name := p.name, amount := p.amount,
           payment_date := today, month := today.month, year := today.year,
           action_type := "mark_paid", old_last_paid_date := p.last_paid_date }],
      next_history_id := hid + 1,
      next_trans_id := db.next_trans_id + 1 }

/-- `FinanceApp.mark_recurring_income_received` (src/finance_app.py:2178).
Same shape as the recurring-payment path, writing `last_received_date` and a
history row with payment_type `income` / action `mark_received`. -/
def mark_recurring_income_received (db : DB) (iid : Nat) (today : Date) : Option DB :=
  match db.recurring_income.find? (fun q => q.id == iid) with
  | none => none
  | some p =>
    let hid := db.next_history_id
    some { db with
      recurring_income := db.recurring_income.map
        (fun q => if q.id == iid then { q with last_received_date := some today } else q),
      payment_history := db.payment_history ++
        [{ id := hid, payment_id := iid, payment_type := "income", name := p.name,
           amount := p.amount, payment_date := today, month := today.month, year := today.year }],
      recent_transactions := db.recent_transactions ++
        [{ id := db.next_trans_id, history_id := hid, payment_id := iid,
           payment_type := "income", name := p.name, amount := p.amount,
           payment_date := today, month := today.month, year := today.year,
           action_type := "mark_received", old_last_paid_date := p.last_received_date }],
      next_history_id := hid + 1,
      next_trans_id := db.next_trans_id + 1 }

/-- Error outcomes of `mark_one_time_payment_paid`. -/
inductive MarkError where
  | notFound
  | alreadyPaid
deriving DecidableEq

/-- `FinanceApp.mark_one_time_payment_paid` (src/finance_app.py:2347).
The only guard is the row's own `paid` flag ("Already Paid" warning); on
success the flag is set, and the history / undo rows are keyed by the
payment's stored due date (`payment_date`), not by today. -/
def mark_one_time_payment_paid (db : DB) (pid : Nat) : Except MarkError DB :=
  match db.one_time_payments.find? (fun q => q.id == pid) with
  | none => Except.error MarkError.notFound
  | some p =>
    if p.paid then Except.error MarkError.alreadyPaid
    else
      let hid := db.next_history_id
      Except.ok { db with
        one_time_payments := db.one_time_payments.map
          (fun q => if q.id == pid then { q with paid := true } else q),
        payment_history := db.payment_history ++
          [{ id := hid, payment_id := pid, payment_type := "one_time", name := p.name,
             amount := p.amount, payment_date := p.payment_date,
             month := p.payment_date.month, year := p.payment_date.year }],
        recent_transactions := db.recent_transactions ++
          [{ id := db.next_trans_id, history_id := hid, payment_id := pid,
             payment_type := "one_time", name := p.name, amount := p.amount,
             payment_date := p.payment_date, month := p.payment_date.month,
             year := p.payment_date.year, action_type := "mark_paid",
             old_last_paid_date := none }],
        next_history_id := hid + 1,
        next_trans_id := db.next_trans_id + 1 }

/-- `FinanceApp.undo_last_payment` (src/finance_app.py:1992).  Pops the most
recent `recent_transactions` row (`ORDER BY created_at DESC LIMIT 1`,
i.e. the last inserted), deletes its `payment_history` row by id, restores
the prior per-obligation state according to (payment_type, action_type), and
deletes the popped undo row.  Returns `none` when the log is empty. -/
def undo_last_payment (db : DB) : Option DB :=
  match db.recent_transactions.getLast? with
  | none => none
  | some t =>
    some { db with
      payment_history := db.payment_history.filter (fun r => r.id != t.history_id),
      recurring_payments :=
        if t.payment_type == "recurring" && t.action_type == "mark_paid" then
          db.recurring_payments.map
            (fun q => if q.id == t.payment_id then
              { q with last_paid_date := t.old_last_paid_date } else q)
        else db.recurring_payments,
      recurring_income :=
        if t.payment_type == "income" && t.action_type == "mark_received" then
          db.recurring_income.map
            (fun q => if q.id == t.payment_id then
              { q with last_received_date := t.old_last_paid_date } else q)
        else db.recurring_income,
      one_time_payments :=
        if t.payment_type == "one_time" && t.action_type == "mark_paid" then
          db.one_time_payments.map
            (fun q => if q.id == t.payment_id then { q with paid := false } else q)
        else db.one_time_payments,
      recent_transactions := db.recent_transactions.filter (fun e => e.id != t.id) }

/-- `(current_year - start_date.year) * 12 + (current_month - start_date.month)`
from `check_and_disable_expired_payments` (src/finance_app.py:1702). -/
def months_elapsed (start today : Date) : Int :=
  ((today.year : Int) - (start.year : Int)) * 12 +
    ((today.month : Int) - (start.month : Int))

/-- The per-row expiration test of `check_and_disable_expired_payments`
(src/finance_app.py:1678): the SQL selects rows with `is_active = 1`,
`pay_period_months IS NOT NULL` and `!= -1`; the loop further requires a
non-null `period_start_date` and compares whole elapsed months against the
pay period. -/
def payment_expired (today : Date) (p : RecurringPayment) : Bool :=
  p.is_active &&
    (match p.pay_period_months with
     | none => false
     | some n =>
       (n != -1) &&
         (match p.period_start_date with
          | none => false
          | some s => decide (months_elapsed s today ≥ n)))

/-- Loop body of `check_and_disable_expired_payments`: an expired row gets
`is_active = 0`, every other row is untouched. -/
def expireStep (today : Date) (p : RecurringPayment) : RecurringPayment :=
  if payment_expired today p then { p with is_active := false } else p

/-- `FinanceApp.check_and_disable_expired_payments` (src/finance_app.py:1668). -/
def check_and_disable_expired_payments (db : DB) (today : Date) : DB :=
  { db with recurring_payments := db.recurring_payments.map (expireStep today) }

/-- `FinanceApp.check_and_delete_pending_deletions` (src/finance_app.py:1588)
and the identical `check_and_delete_pending_deletions` in
src/notification_service.py:253.  Reads the checkpoint, decides whether the
current (month, year) is strictly later, unconditionally overwrites the
checkpoint with the current (year, month), and deletes every row with
`delete_next_month = 1` only when a new month was detected.  The returned
flag is the source's "deleted something" result. -/
def check_and_delete_pending_deletions (db : DB) (today : Date) : DB × Bool :=
  let is_new_month :=
    match db.checkpoint with
    | none => false
    | some (ly, lm) =>
      decide (today.year > ly) || (today.year == ly && decide (today.month > lm))
  let db1 := { db with checkpoint := some (today.year, today.month) }
  if is_new_month then
    let pending := db1.recurring_payments.filter (fun p => p.delete_next_month)
    ({ db1 with recurring_payments :=
        db1.recurring_payments.filter (fun p => !p.delete_next_month) },
     !pending.isEmpty)
  else
    (db1, false)

/-- Sum of `payment_history.amount` over rows with payment_type in
('recurring', 'one_time') for the given (month, year)
(src/finance_app.py:2987). -/
def total_payments_for (db : DB) (month year : Nat) : Int :=
  ((db.payment_history.filter (fun r =>
      (r.payment_type == "recurring" || r.payment_type == "one_time") &&
        r.month == month && r.year == year)).map (fun r => r.amount)).sum

/-- Sum of every `recurring_income.amount` row (src/finance_app.py:3000 —
no filter at all). -/
def scheduled_income_total (db : DB) : Int :=
  (db.recurring_income.map (fun r => r.amount)).sum

/-- Sum of income `payment_history` rows for the given (month, year)
(src/finance_app.py:3005). -/
def received_income_total (db : DB) (month year : Nat) : Int :=
  ((db.payment_history.filter (fun r =>
      r.payment_type == "income" && r.month == month && r.year == year)).map
    (fun r => r.amount)).sum

/-- `savings_amount` of the existing `monthly_summary` row for
(month, year), 0 when absent (src/finance_app.py:3013). -/
def savings_for (db : DB) (month year : Nat) : Int :=
  match db.monthly_summary.find? (fun s => s.month == month && s.year == year) with
  | some s => s.savings_amount
  | none => 0

/-- `FinanceApp.update_monthly_summary` (src/finance_app.py:2978).  The
`INSERT OR REPLACE` under `UNIQUE(month, year)` is modelled by dropping any
row with that key and appending the freshly computed row. -/
def update_monthly_summary (db : DB) (month year : Nat) (today : Date) : DB :=
  let is_current := month == today.month && year == today.year
  let total_payments := total_payments_for db month year
  let total_income :=
    if is_current then scheduled_income_total db else received_income_total db month year
  let savings := savings_for db month year
  let net_savings := total_income - total_payments - savings
  { db with monthly_summary :=
      (db.monthly_summary.filter (fun s => !(s.month == month && s.year == year))) ++
        [{ month := month, year := year, total_payments := total_payments,
           total_income := total_income, savings_amount := savings,
           net_savings := net_savings }] }

/-- "last paid date is in the same month and year" check of
`detect_payments` (src/finance_app.py:1842). -/
def lastPaidInMonth (p : RecurringPayment) (month year : Nat) : Bool :=
  match p.last_paid_date with
  | none => false
  | some d => d.month == month && d.year == year

/-- The `payment_history` COUNT(*) probe of `detect_payments` for a
recurring payment's (month, year) cycle (src/finance_app.py:1846). -/
def hasRecurringRecord (db : DB) (pid : Nat) (month year : Nat) : Bool :=
  db.payment_history.any (fun r =>
    r.payment_id == pid && r.payment_type == "recurring" &&
      r.month == month && r.year == year)

/-- The `payment_history` COUNT(*) probe of `detect_payments` for a one-time
payment's due date (src/finance_app.py:1870). -/
def hasOneTimeRecord (db : DB) (pid : Nat) (d : Date) : Bool :=
  db.payment_history.any (fun r =>
    r.payment_id == pid && r.payment_type == "one_time" &&
      decide (r.payment_date = d))

/-- Detection phase of `FinanceApp.detect_payments` (src/finance_app.py:1803):
the lists of recurring and one-time payments that have passed their due date
without being considered fulfilled, before the user is asked to commit. -/
def detect_payments (db : DB) (today : Date) : List RecurringPayment × List OneTimePayment :=
  let detectedRecurring := db.recurring_payments.filter (fun p =>
    p.is_active &&
      dateLe (clampedDate today.year today.month p.payment_day) today &&
      !(lastPaidInMonth p today.month today.year) &&
      !(hasRecurringRecord db p.id today.month today.year))
  let detectedOneTime := db.one_time_payments.filter (fun p =>
    !p.paid && dateLe p.payment_date today &&
      !(hasOneTimeRecord db p.id p.payment_date))
  (detectedRecurring, detectedOneTime)

/-- Concrete payment carrying the `delete_next_month` flag, for the C4
witness. -/
def c4Pending : RecurringPayment :=
  { id := 1, name := "gym", amount := 30, payment_day := 5, last_paid_date := none,
    pay_period_months := none, period_start_date := none, is_active := true,
    delete_next_month := true }

/-- Concrete database whose checkpoint, March 2024, lies strictly before
April 2024, for the C4 witness. -/
def c4DB : DB :=
  { recurring_payments := [c4Pending], recurring_income := [],
    one_time_payments := [], payment_history := [], recent_transactions := [],
    monthly_summary := [], checkpoint := some (2024, 3),
    next_history_id := 1, next_trans_id := 1 }

/-- Concrete payment for the C7 witness: pay period 3 months starting
2024-01-01. -/
def c7Payment : RecurringPayment :=
  { id := 1, name := "sub", amount := 10, payment_day := 1, last_paid_date := none,
    pay_period_months := some 3, period_start_date := some ⟨2024, 1, 1⟩,
    is_active := true, delete_next_month := false }

/-- Recurring payment whose current cycle already has a history record, used
to refute the duplicate-cycle guard of claim C1. -/
def c1Payment : RecurringPayment :=
  { id := 1, name := "rent", amount := 50, payment_day := 1,
    last_paid_date := some ⟨2024, 4, 1⟩, pay_period_months := none,
    period_start_date := none, is_active := true, delete_next_month := false }

/-- Existing FulfillmentRecord for payment 1 in the cycle (5, 2024). -/
def c1Record : HistoryRecord :=
  { id := 0, payment_id := 1, payment_type := "recurring", name := "rent",
    amount := 50, payment_date := ⟨2024, 5, 2⟩, month := 5, year := 2024 }

/-- Database in which payment 1 is already fulfilled for May 2024. -/
def c1DB : DB :=
  { recurring_payments := [c1Payment], recurring_income := [],
    one_time_payments := [], payment_history := [c1Record],
    recent_transactions := [], monthly_summary := [], checkpoint := none,
    next_history_id := 1, next_trans_id := 1 }

/-- One-time payment already marked paid, for the C1 amended witness. -/
def c1OneTime : OneTimePayment :=
  { id := 7, name := "tv", amount := 20, payment_date := ⟨2024, 5, 3⟩, paid := true }

/-- Database holding the already-paid one-time payment. -/
def c1DB2 : DB :=
  { recurring_payments := [c1Payment], recurring_income := [],
    one_time_payments := [c1OneTime], payment_history := [c1Record],
    recent_transactions := [], monthly_summary := [], checkpoint := none,
    next_history_id := 1, next_trans_id := 1 }

/-- Iterated fulfillment of payment 1, threading the optional state, used to
evaluate the undo-log growth of claim C2. -/
def iterateMark : Nat → Option DB → Date → Option DB
  | 0, odb, _ => odb
  | n + 1, odb, d => iterateMark n (odb.bind (fun db => mark_recurring_payment_paid db 1 d)) d

/-- Fresh database with a single recurring payment and an empty undo log,
for the C2 evaluation. -/
def c2DB : DB :=
  { recurring_payments :=
      [{ id := 1, name := "rent", amount := 50, payment_day := 1,
         last_paid_date := none, pay_period_months := none,
         period_start_date := none, is_active := true,
         delete_next_month := false }],
    recurring_income := [], one_time_payments := [], payment_history := [],
    recent_transactions := [], monthly_summary := [], checkpoint := none,
    next_history_id := 1, next_trans_id := 1 }

/-- Concrete pre-call database for the C3 witness. -/
def c3DB : DB :=
  { recurring_payments :=
      [{ id := 1, name := "rent", amount := 50, payment_day := 1,
         last_paid_date := some ⟨2024, 4, 1⟩, pay_period_months := none,
         period_start_date := none, is_active := true, delete_next_month := false }],
    recurring_income := [], one_time_payments := [], payment_history := [],
    recent_transactions := [], monthly_summary := [], checkpoint := none,
    next_history_id := 1, next_trans_id := 1 }

/-- The result of marking payment 1 of `c3DB` paid on 2024-05-10. -/
def c3Marked : DB :=
  { recurring_payments :=
      [{ id := 1, name := "rent", amount := 50, payment_day := 1,
         last_paid_date := some ⟨2024, 5, 10⟩, pay_period_months := none,
         period_start_date := none, is_active := true, delete_next_month := false }],
    recurring_income := [], one_time_payments := [],
    payment_history :=
      [{ id := 1, payment_id := 1, payment_type := "recurring", name := "rent",
         amount := 50, payment_date := ⟨2024, 5, 10⟩, month := 5, year := 2024 }],
    recent_transactions :=
      [{ id := 1, history_id := 1, payment_id := 1, payment_type := "recurring",
         name := "rent", amount := 50, payment_date := ⟨2024, 5, 10⟩, month := 5,
         year := 2024, action_type := "mark_paid",
         old_last_paid_date := some ⟨2024, 4, 1⟩ }],
    monthly_summary := [], checkpoint := none,
    next_history_id := 2, next_trans_id := 2 }

theorem one_le_monthLength (y m : Nat) : 1 ≤ monthLength y m := by
  unfold monthLength
  split
  · split <;> omega
  · split <;> omega

/-- Claim C5: for every anchor_day in 1..31 and every reference (month, year),
the `current` date computed by `calculate_payment_dates` lies in the reference
month and year, its day is the anchor day when the month is long enough and
the month's true last calendar day otherwise, and it never overflows into the
next month (its day never exceeds the month's length). -/
theorem C5_current_cycle_clamped_to_month (anchor m y : Nat) (lp : Option Date)
    (h1 : 1 ≤ anchor) (h2 : anchor ≤ 31) (hm1 : 1 ≤ m) (hm2 : m ≤ 12) :
    (calculate_payment_dates anchor lp m y).2.1.year = y ∧
    (calculate_payment_dates anchor lp m y).2.1.month = m ∧
    (calculate_payment_dates anchor lp m y).2.1.day =
      (if anchor ≤ monthLength y m then anchor else monthLength y m) ∧
    1 ≤ (calculate_payment_dates anchor lp m y).2.1.day ∧
    (calculate_payment_dates anchor lp m y).2.1.day ≤ monthLength y m := by
  have e : (calculate_payment_dates anchor lp m y).2.1 = clampedDate y m anchor := rfl
  rw [e]
  unfold clampedDate
  have hl := one_le_monthLength y m
  by_cases hc : anchor ≤ monthLength y m
  · rw [if_pos ⟨h1, hc⟩, if_pos hc]
    exact ⟨rfl, rfl, rfl, h1, hc⟩
  · rw [if_neg (fun h => hc h.2), if_neg hc]
    exact ⟨rfl, rfl, rfl, hl, le_refl _⟩

/-- Witness for C5 at the leap-year corner case: anchor_day 31 in February
2024 yields February 29, 2024. -/
theorem C5_current_cycle_clamped_to_month_witness :
    (calculate_payment_dates 31 none 2 2024).2.1.year = 2024 ∧
    (calculate_payment_dates 31 none 2 2024).2.1.month = 2 ∧
    (calculate_payment_dates 31 none 2 2024).2.1.day =
      (if 31 ≤ monthLength 2024 2 then 31 else monthLength 2024 2) ∧
    1 ≤ (calculate_payment_dates 31 none 2 2024).2.1.day ∧
    (calculate_payment_dates 31 none 2 2024).2.1.day ≤ monthLength 2024 2 :=
  C5_current_cycle_clamped_to_month 31 2 2024 none (by decide) (by decide)
    (by decide) (by decide)

/-- Claim C6: for every anchor_day and reference month M, the `next` cycle
date computed by `calculate_payment_dates` for reference month M equals the
`current` cycle date computed for month M+1 with the same anchor day, with
December of year Y rolling over to January of year Y+1 (the previous-cycle
input is irrelevant to both components). -/
theorem C6_next_cycle_eq_current_of_next_month (anchor : Nat)
    (lp lp2 : Option Date) (m y : Nat) :
    (calculate_payment_dates anchor lp m y).2.2 =
      (calculate_payment_dates anchor lp2 (if m == 12 then 1 else m + 1)
        (if m == 12 then y + 1 else y)).2.1 := rfl

theorem checkpoint_after_check (db : DB) (today : Date) :
    (check_and_delete_pending_deletions db today).1.checkpoint =
      some (today.year, today.month) := by
  simp only [check_and_delete_pending_deletions]
  split <;> rfl

theorem check_same_month_no_deletion (db : DB) (t2 : Date) (ly lm : Nat)
    (h : db.checkpoint = some (ly, lm)) (h1 : t2.year = ly) (h2 : t2.month = lm) :
    (check_and_delete_pending_deletions db t2).1.recurring_payments =
      db.recurring_payments := by
  have hb : (decide (t2.year > ly) || (t2.year == ly && decide (t2.month > lm))) = false := by
    subst h1 h2; simp
  simp [check_and_delete_pending_deletions, h, hb]

/-- Claim C9: every invocation of the deferred-deletion check overwrites the
persisted checkpoint with the current (year, month) unconditionally — in
particular also when the current month is not later than the stored
checkpoint, so a run with a system date in an earlier month moves the
checkpoint backwards rather than leaving it in place. -/
theorem C9_checkpoint_unconditionally_overwritten (db : DB) (today : Date) :
    (check_and_delete_pending_deletions db today).1.checkpoint =
      some (today.year, today.month) :=
  checkpoint_after_check db today

/-- Claim C4: deferred deletion is checkpointed and idempotent.  With a null
checkpoint nothing is deleted and the checkpoint is initialised; with the
current (month, year) strictly later than the checkpoint every payment
flagged `delete_next_month` is deleted and the checkpoint advances; and a
second invocation within the same (month, year) deletes nothing further. -/
theorem C4_deferred_deletion_checkpointed_idempotent (db : DB) (today : Date) :
    (db.checkpoint = none →
      (check_and_delete_pending_deletions db today).1.recurring_payments =
        db.recurring_payments ∧
      (check_and_delete_pending_deletions db today).1.checkpoint =
        some (today.year, today.month)) ∧
    (∀ ly lm, db.checkpoint = some (ly, lm) →
      (ly < today.year ∨ (ly = today.year ∧ lm < today.month)) →
      (check_and_delete_pending_deletions db today).1.recurring_payments =
        db.recurring_payments.filter (fun p => !p.delete_next_month) ∧
      (check_and_delete_pending_deletions db today).1.checkpoint =
        some (today.year, today.month)) ∧
    (∀ t2 : Date, t2.year = today.year → t2.month = today.month →
      (check_and_delete_pending_deletions
          (check_and_delete_pending_deletions db today).1 t2).1.recurring_payments =
        (check_and_delete_pending_deletions db today).1.recurring_payments) := by
  refine ⟨?_, ?_, ?_⟩
  · intro h
    constructor
    · simp [check_and_delete_pending_deletions, h]
    · exact checkpoint_after_check db today
  · intro ly lm h hlt
    have hb : (decide (today.year > ly) || (today.year == ly && decide (today.month > lm))) = true := by
      rcases hlt with h1 | ⟨h1, h2⟩
      · simp [h1]
      · simp [h1, h2]
    constructor
    · simp [check_and_delete_pending_deletions, h, hb]
    · exact checkpoint_after_check db today
  · intro t2 h1 h2
    exact check_same_month_no_deletion _ t2 today.year today.month
      (checkpoint_after_check db today) h1 h2

/-- Witness for C4: checkpoint March 2024, run in April 2024 — the pending
payment is deleted and the checkpoint advances to April 2024. -/
theorem C4_deferred_deletion_checkpointed_idempotent_witness :
    (check_and_delete_pending_deletions c4DB ⟨2024, 4, 10⟩).1.recurring_payments =
      c4DB.recurring_payments.filter (fun p => !p.delete_next_month) ∧
    (check_and_delete_pending_deletions c4DB ⟨2024, 4, 10⟩).1.checkpoint =
      some (2024, 4) :=
  (C4_deferred_deletion_checkpointed_idempotent c4DB ⟨2024, 4, 10⟩).2.1 2024 3 rfl
    (Or.inr ⟨rfl, by decide⟩)

/-- Claim C7: the expiration pass maps every stored payment through
`expireStep`; a still-active payment with a finite pay period and a known
period start is deactivated exactly when
(today.year − start.year)·12 + (today.month − start.month) reaches the pay
period (day-of-month ignored), and an already-inactive payment is never
touched (no automatic reactivation). -/
theorem C7_finite_pay_period_expiration :
    (∀ db today, (check_and_disable_expired_payments db today).recurring_payments =
      db.recurring_payments.map (expireStep today)) ∧
    (∀ today p n s, p.pay_period_months = some n → n ≠ -1 →
      p.period_start_date = some s → p.is_active = true →
      ((expireStep today p).is_active = false ↔
        ((today.year : Int) - s.year) * 12 + ((today.month : Int) - s.month) ≥ n)) ∧
    (∀ today q, q.is_active = false → expireStep today q = q) := by
  refine ⟨fun db today => rfl, ?_, ?_⟩
  · intro today p n s hp hn hs ha
    have hbn : (n != -1) = true := by simpa [bne_iff_ne] using hn
    by_cases hd : months_elapsed s today ≥ n
    · have he : payment_expired today p = true := by
        simp [payment_expired, hp, hs, ha, hbn, hd]
      have : (expireStep today p).is_active = false := by
        simp [expireStep, he]
      rw [this]
      simp only [true_iff]
      exact hd
    · have he : payment_expired today p = false := by
        simp [payment_expired, hp, hs, ha, hbn, hd]
      have : expireStep today p = p := by
        simp [expireStep, he]
      rw [this, ha]
      constructor
      · intro h; exact absurd h (by simp)
      · intro h; exact absurd h hd
  · intro today q hq
    have he : payment_expired today q = false := by
      simp [payment_expired, hq]
    simp [expireStep, he]

/-- Witness for C7: at any date in April 2024 the 3-month period started
January 2024 has elapsed, so the payment is disabled. -/
theorem C7_finite_pay_period_expiration_witness :
    (expireStep ⟨2024, 4, 15⟩ c7Payment).is_active = false :=
  (C7_finite_pay_period_expiration.2.1 ⟨2024, 4, 15⟩ c7Payment 3 ⟨2024, 1, 1⟩
    rfl (by decide) rfl rfl).mpr (by decide)

/-- Claim C10: a recurring payment is detected as overdue exactly when it is
stored, active, its (clamped) cycle date has passed, and the cycle is not
considered fulfilled — where "fulfilled" is the disjunction of the
last-paid-date falling in the current (month, year) and a history record
existing for that cycle.  In particular a payment whose last-paid date lies
in the current month is never detected, even with no history record. -/
theorem C10_detect_fulfilled_by_disjunction (db : DB) (today : Date)
    (p : RecurringPayment) :
    p ∈ (detect_payments db today).1 ↔
      (p ∈ db.recurring_payments ∧ p.is_active = true ∧
        dateLe (clampedDate today.year today.month p.payment_day) today = true ∧
        ¬(lastPaidInMonth p today.month today.year = true ∨
          hasRecurringRecord db p.id today.month today.year = true)) := by
  simp only [detect_payments, List.mem_filter, Bool.and_eq_true,
    Bool.not_eq_true', not_or]
  constructor
  · rintro ⟨hm, ⟨⟨⟨ha, hd⟩, hl⟩, hh⟩⟩
    exact ⟨hm, ha, hd, by simp [hl], by simp [hh]⟩
  · rintro ⟨hm, ha, hd, hl, hh⟩
    exact ⟨hm, ⟨⟨⟨ha, hd⟩, by simp [Bool.not_eq_true] at hl; exact hl⟩,
      by simp [Bool.not_eq_true] at hh; exact hh⟩⟩

theorem find?_append_singleton {α : Type} (p : α → Bool) (l : List α) (a : α)
    (h : ∀ x ∈ l, p x = false) (ha : p a = true) :
    (l ++ [a]).find? p = some a := by
  induction l with
  | nil => simp [List.find?, ha]
  | cons b t ih =>
    have hb : p b = false := h b (by simp)
    have : ((b :: t) ++ [a]) = b :: (t ++ [a]) := rfl
    rw [this, List.find?_cons_of_neg _ (by simp [hb])]
    exact ih (fun x hx => h x (by simp [hx]))

/-- Claim C8: recomputing a month's summary upserts a row whose
total_payments is the history sum of recurring/one-time records for that
month, whose total_income is the schedule of all recurring income amounts
when (month, year) is the current calendar month and the sum of income
history records otherwise, whose savings_amount is taken from the existing
summary row (0 when absent, never recomputed), and whose net_savings is
total_income − total_payments − savings_amount. -/
theorem C8_recompute_month_summary (db : DB) (month year : Nat) (today : Date) :
    (update_monthly_summary db month year today).monthly_summary.find?
        (fun s => s.month == month && s.year == year) =
      some { month := month, year := year,
             total_payments := total_payments_for db month year,
             total_income :=
               if month == today.month && year == today.year
               then scheduled_income_total db
               else received_income_total db month year,
             savings_amount := savings_for db month year,
             net_savings :=
               (if month == today.month && year == today.year
                then scheduled_income_total db
                else received_income_total db month year) -
                 total_payments_for db month year - savings_for db month year } := by
  simp only [update_monthly_summary]
  apply find?_append_singleton
  · intro x hx
    have hx2 := (List.mem_filter.mp hx).2
    rw [Bool.not_eq_true'] at hx2
    exact hx2
  · simp

/-- Counterexample to claim C1: a FulfillmentRecord already exists for
payment 1 in the target cycle (May 2024), yet `mark_recurring_payment_paid`
does not fail — it succeeds, inserts a second history record for the same
cycle, grows the undo log, and overwrites `last_paid_date`. -/
theorem C1_counterexample :
    hasRecurringRecord c1DB 1 5 2024 = true ∧
    (mark_recurring_payment_paid c1DB 1 ⟨2024, 5, 10⟩).isSome = true ∧
    ((mark_recurring_payment_paid c1DB 1 ⟨2024, 5, 10⟩).map
      (fun s => s.payment_history.length)) = some 2 ∧
    ((mark_recurring_payment_paid c1DB 1 ⟨2024, 5, 10⟩).map
      (fun s => s.recent_transactions.length)) = some 1 ∧
    ((mark_recurring_payment_paid c1DB 1 ⟨2024, 5, 10⟩).map
      (fun s => s.recurring_payments.map (fun p => p.last_paid_date))) =
      some [some ⟨2024, 5, 10⟩] := by
  refine ⟨rfl, rfl, rfl, rfl, rfl⟩

/-- Claim C1 as amended: only one-time obligations carry a duplicate guard,
and it tests the `paid` flag (not the history table) — marking fails exactly
when the flag is already set, and an error leaves the state unreturned;
recurring payments and recurring income undergo no duplicate-cycle check at
all: marking succeeds whenever the obligation id resolves, even when a
FulfillmentRecord already exists for the target cycle. -/
theorem C1_mark_fulfilled_guards :
    (∀ db pid p, db.one_time_payments.find? (fun q => q.id == pid) = some p →
      p.paid = true →
      mark_one_time_payment_paid db pid = Except.error MarkError.alreadyPaid) ∧
    (∀ db pid p, db.one_time_payments.find? (fun q => q.id == pid) = some p →
      p.paid = false → (mark_one_time_payment_paid db pid).isOk = true) ∧
    (∀ db pid today p,
      db.recurring_payments.find? (fun q => q.id == pid) = some p →
      (mark_recurring_payment_paid db pid today).isSome = true) ∧
    (∀ db iid today p,
      db.recurring_income.find? (fun q => q.id == iid) = some p →
      (mark_recurring_income_received db iid today).isSome = true) := by
  refine ⟨?_, ?_, ?_, ?_⟩
  · intro db pid p hf hp
    simp [mark_one_time_payment_paid, hf, hp]
  · intro db pid p hf hp
    simp [mark_one_time_payment_paid, hf, hp, Except.isOk, Except.toBool]
  · intro db pid today p hf
    simp [mark_recurring_payment_paid, hf]
  · intro db iid today p hf
    simp [mark_recurring_income_received, hf]

/-- Witness for the amended C1: the already-paid one-time payment is
rejected with AlreadyPaid, while the recurring payment with an existing
cycle record is still accepted. -/
theorem C1_mark_fulfilled_guards_witness :
    mark_one_time_payment_paid c1DB2 7 = Except.error MarkError.alreadyPaid ∧
    (mark_recurring_payment_paid c1DB2 1 ⟨2024, 5, 10⟩).isSome = true :=
  ⟨C1_mark_fulfilled_guards.1 c1DB2 7 c1OneTime rfl rfl,
   C1_mark_fulfilled_guards.2.2.1 c1DB2 1 ⟨2024, 5, 10⟩ c1Payment rfl⟩

/-- Claim C2 evaluated on the code: after 11 fulfillments starting from an
empty undo log, `recent_transactions` holds 11 entries — nothing in the
source ever trims the table to 10 rows, so no eviction takes place and the
claimed bound fails. -/
theorem C2_undo_log_grows_past_ten :
    ((iterateMark 11 (some c2DB) ⟨2024, 5, 10⟩).map
      (fun s => s.recent_transactions.length)) = some 11 := by
  rfl

theorem find?_eq_unique {α : Type} (key : α → Nat) (pid : Nat) (p : α) :
    ∀ l : List α, l.Pairwise (fun a b => key a ≠ key b) →
      l.find? (fun x => key x == pid) = some p →
      ∀ q ∈ l, key q = pid → q = p := by
  intro l
  induction l with
  | nil => intro _ _ q hq; cases hq
  | cons a t ih =>
    intro hpair hfind q hq hkey
    rw [List.pairwise_cons] at hpair
    by_cases ha : (key a == pid) = true
    · rw [@List.find?_cons_of_pos _ (fun x => key x == pid) a t ha] at hfind
      have hpa : a = p := by injection hfind
      cases List.mem_cons.mp hq with
      | inl h => rw [h]; exact hpa
      | inr h =>
        exact absurd ((beq_iff_eq.mp ha).trans hkey.symm) (hpair.1 q h)
    · rw [@List.find?_cons_of_neg _ (fun x => key x == pid) a t ha] at hfind
      cases List.mem_cons.mp hq with
      | inl h =>
        exact absurd (by rw [← h]; simp [hkey]) ha
      | inr h => exact ih hpair.2 hfind q h hkey

theorem map_cond_restore {α : Type} (P : α → Bool) (f g : α → α) (l : List α)
    (hPf : ∀ x, P x = true → P (f x) = true)
    (hres : ∀ x ∈ l, P x = true → g (f x) = x) :
    (l.map (fun x => if P x then f x else x)).map
      (fun x => if P x then g x else x) = l := by
  induction l with
  | nil => rfl
  | cons a t ih =>
    simp only [List.map_cons]
    congr 1
    · by_cases h : P a = true
      · rw [if_pos h, if_pos (hPf a h)]
        exact hres a (by simp) h
      · rw [if_neg h, if_neg h]
    · exact ih (fun x hx hp => hres x (by simp [hx]) hp)

theorem filter_ne_append_singleton {α : Type} (key : α → Nat) (l : List α)
    (a : α) (N : Nat) (hl : ∀ x ∈ l, key x < N) (ha : key a = N) :
    (l ++ [a]).filter (fun x => key x != N) = l := by
  rw [List.filter_append]
  have h1 : l.filter (fun x => key x != N) = l :=
    List.filter_eq_self.mpr (fun x hx => by
      have := hl x hx
      simp only [bne_iff_ne, ne_eq]
      omega)
  have h2 : [a].filter (fun x => key x != N) = [] := by
    simp [List.filter, ha]
  rw [h1, h2, List.append_nil]

/-- Claim C3 (round-trip law): in a database with distinct obligation ids and
history/undo ids below the autoincrement counters, marking any recurring
payment, recurring income, or one-time payment fulfilled and then
immediately undoing restores the obligation table, the history table, and
the undo log exactly to their pre-call state. -/
theorem C3_mark_then_undo_roundtrip (db : DB) (today : Date)
    (hrp : db.recurring_payments.Pairwise (fun a b => a.id ≠ b.id))
    (hri : db.recurring_income.Pairwise (fun a b => a.id ≠ b.id))
    (hot : db.one_time_payments.Pairwise (fun a b => a.id ≠ b.id))
    (hph : ∀ r ∈ db.payment_history, r.id < db.next_history_id)
    (hrt : ∀ t ∈ db.recent_transactions, t.id < db.next_trans_id) :
    (∀ pid db1, mark_recurring_payment_paid db pid today = some db1 →
      ∃ db2, undo_last_payment db1 = some db2 ∧
        db2.recurring_payments = db.recurring_payments ∧
        db2.recurring_income = db.recurring_income ∧
        db2.one_time_payments = db.one_time_payments ∧
        db2.payment_history = db.payment_history ∧
        db2.recent_transactions = db.recent_transactions) ∧
    (∀ iid db1, mark_recurring_income_received db iid today = some db1 →
      ∃ db2, undo_last_payment db1 = some db2 ∧
        db2.recurring_payments = db.recurring_payments ∧
        db2.recurring_income = db.recurring_income ∧
        db2.one_time_payments = db.one_time_payments ∧
        db2.payment_history = db.payment_history ∧
        db2.recent_transactions = db.recent_transactions) ∧
    (∀ oid db1, mark_one_time_payment_paid db oid = Except.ok db1 →
      ∃ db2, undo_last_payment db1 = some db2 ∧
        db2.recurring_payments = db.recurring_payments ∧
        db2.recurring_income = db.recurring_income ∧
        db2.one_time_payments = db.one_time_payments ∧
        db2.payment_history = db.payment_history ∧
        db2.recent_transactions = db.recent_transactions) := by
  refine ⟨?_, ?_, ?_⟩
  · intro pid db1 h
    cases hf : db.recurring_payments.find? (fun q => q.id == pid) with
    | none => simp [mark_recurring_payment_paid, hf] at h
    | some p =>
      simp only [mark_recurring_payment_paid, hf, Option.some.injEq] at h
      subst h
      rw [undo_last_payment]
      rw [List.getLast?_concat]
      refine ⟨_, rfl, ?_, ?_, ?_, ?_, ?_⟩
      · simp only [show (("recurring" : String) == "recurring" &&
          ("mark_paid" : String) == "mark_paid") = true from by decide, if_true]
        exact map_cond_restore (fun q => q.id == pid)
          (fun q => { q with last_paid_date := some today })
          (fun q => { q with last_paid_date := p.last_paid_date })
          db.recurring_payments (fun x hx => hx)
          (fun x hx hp => by
            have hp2 : (x.id == pid) = true := hp
            have hxp : x = p := find?_eq_unique (fun q => q.id) pid p
              db.recurring_payments hrp hf x hx (beq_iff_eq.mp hp2)
            rw [hxp])
      · simp only [show (("recurring" : String) == "income" &&
          ("mark_paid" : String) == "mark_received") = false from by decide,
          Bool.false_eq_true, if_false]
      · simp only [show (("recurring" : String) == "one_time" &&
          ("mark_paid" : String) == "mark_paid") = false from by decide,
          Bool.false_eq_true, if_false]
      · refine filter_ne_append_singleton (fun r => r.id) db.payment_history _
          db.next_history_id hph ?_
        rfl
      · refine filter_ne_append_singleton (fun e => e.id) db.recent_transactions _
          db.next_trans_id hrt ?_
        rfl
  · intro iid db1 h
    cases hf : db.recurring_income.find? (fun q => q.id == iid) with
    | none => simp [mark_recurring_income_received, hf] at h
    | some p =>
      simp only [mark_recurring_income_received, hf, Option.some.injEq] at h
      subst h
      rw [undo_last_payment]
      rw [List.getLast?_concat]
      refine ⟨_, rfl, ?_, ?_, ?_, ?_, ?_⟩
      · simp only [show (("income" : String) == "recurring" &&
          ("mark_received" : String) == "mark_paid") = false from by decide,
          Bool.false_eq_true, if_false]
      · simp only [show (("income" : String) == "income" &&
          ("mark_received" : String) == "mark_received") = true from by decide, if_true]
        exact map_cond_restore (fun q => q.id == iid)
          (fun q => { q with last_received_date := some today })
          (fun q => { q with last_received_date := p.last_received_date })
          db.recurring_income (fun x hx => hx)
          (fun x hx hp => by
            have hp2 : (x.id == iid) = true := hp
            have hxp : x = p := find?_eq_unique (fun q => q.id) iid p
              db.recurring_income hri hf x hx (beq_iff_eq.mp hp2)
            rw [hxp])
      · simp only [show (("income" : String) == "one_time" &&
          ("mark_received" : String) == "mark_paid") = false from by decide,
          Bool.false_eq_true, if_false]
      · refine filter_ne_append_singleton (fun r => r.id) db.payment_history _
          db.next_history_id hph ?_
        rfl
      · refine filter_ne_append_singleton (fun e => e.id) db.recent_transactions _
          db.next_trans_id hrt ?_
        rfl
  · intro oid db1 h
    cases hf : db.one_time_payments.find? (fun q => q.id == oid) with
    | none => simp [mark_one_time_payment_paid, hf] at h
    | some p =>
      by_cases hpaid : p.paid = true
      · simp [mark_one_time_payment_paid, hf, hpaid] at h
      · have hpaid' : p.paid = false := by revert hpaid; cases p.paid <;> simp
        simp only [mark_one_time_payment_paid, hf, hpaid', Bool.false_eq_true,
          if_false, Except.ok.injEq] at h
        subst h
        rw [undo_last_payment]
        rw [List.getLast?_concat]
        refine ⟨_, rfl, ?_, ?_, ?_, ?_, ?_⟩
        · simp only [show (("one_time" : String) == "recurring" &&
            ("mark_paid" : String) == "mark_paid") = false from by decide,
            Bool.false_eq_true, if_false]
        · simp only [show (("one_time" : String) == "income" &&
            ("mark_paid" : String) == "mark_received") = false from by decide,
            Bool.false_eq_true, if_false]
        · simp only [show (("one_time" : String) == "one_time" &&
            ("mark_paid" : String) == "mark_paid") = true from by decide, if_true]
          exact map_cond_restore (fun q => q.id == oid)
            (fun q => { q with paid := true })
            (fun q => { q with paid := false })
            db.one_time_payments (fun x hx => hx)
            (fun x hx hp => by
              have hp2 : (x.id == oid) = true := hp
              have hxp : x = p := find?_eq_unique (fun q => q.id) oid p
                db.one_time_payments hot hf x hx (beq_iff_eq.mp hp2)
              rw [hxp, ← hpaid'])
        · refine filter_ne_append_singleton (fun r => r.id) db.payment_history _
            db.next_history_id hph ?_
          rfl
        · refine filter_ne_append_singleton (fun e => e.id) db.recent_transactions _
            db.next_trans_id hrt ?_
          rfl

/-- Witness for C3: marking the concrete payment paid and undoing restores
every table of `c3DB`. -/
theorem C3_mark_then_undo_roundtrip_witness :
    ∃ db2, undo_last_payment c3Marked = some db2 ∧
      db2.recurring_payments = c3DB.recurring_payments ∧
      db2.recurring_income = c3DB.recurring_income ∧
      db2.one_time_payments = c3DB.one_time_payments ∧
      db2.payment_history = c3DB.payment_history ∧
      db2.recent_transactions = c3DB.recent_transactions :=
  (C3_mark_then_undo_roundtrip c3DB ⟨2024, 5, 10⟩ (by simp [c3DB])
    (by simp [c3DB]) (by simp [c3DB]) (by simp [c3DB]) (by simp [c3DB])).1 1
    c3Marked (by decide)

end FinanceApp
